import Mathlib

/-
Verification of the ruma-api crate (src/src/lib.rs and src/src/macros.rs) against
its natural-language specification.

The crate defines: the Method enumeration, the Info metadata record, the Endpoint
trait with its two associated types bound by the empty marker traits Request and
Response, the PathParams trait, the family of request container types (mod request,
one per non-empty subset of {body, headers, path_params, query_params}) and of
response container types (mod response, body and headers present or absent, status
always present), and the endpoint! code generator in macros.rs.

The wire-level Request/Response model and the conversion contract described by the
specification are not present in this source variant; where a claim needs them they
are modelled from the spec, and every such definition is marked in its doc comment.
-/

namespace RumaApi

/-- HTTP request methods used in Matrix APIs (enum Method in src/src/lib.rs). -/
inductive Method
  | Delete
  | Get
  | Post
  | Put
deriving DecidableEq, Fintype

/-- Information about an Endpoint (struct Info in src/src/lib.rs). The six fields
appear in the order of the source declaration; the static string references of the
source are modelled as String values. -/
structure Info where
  description : String
  name : String
  rate_limited : Bool
  request_method : Method
  requires_authentication : Bool
  router_path : String
deriving DecidableEq

/-- Shallow model of the external serde Serialize bound: the type can be encoded to
a byte sequence (bytes are modelled as Nat). -/
class Serialize (α : Type) where
  serialize : α → List Nat

/-- Shallow model of the external serde Deserialize bound: the type can be decoded
from a byte sequence, fallibly. -/
class Deserialize (α : Type) where
  deserialize : List Nat → Option α

/-- Parameters included within the path component of the URL for an endpoint
(trait PathParams in src/src/lib.rs): the type can render the request path. -/
class PathParams (α : Type) where
  request_path : α → String

/-- An endpoint's request: the empty marker trait `pub trait Request {}` of
src/src/lib.rs. It has no methods and no requirements. -/
class Request (α : Type) : Prop where

/-- An endpoint's response: the empty marker trait `pub trait Response {}` of
src/src/lib.rs. It has no methods and no requirements. -/
class Response (α : Type) : Prop where

/-- The u16 type of response status fields: exactly the integers 0 to 65535. -/
abbrev U16 : Type := Fin 65536

/-- An implementation of the Endpoint trait of src/src/lib.rs: it supplies an
associated request type bound by the Request marker trait, an associated response
type bound by the Response marker trait, and the nullary function info. The
associated types are named Req and Resp here because the source's names Request and
Response coincide with the marker traits' names. -/
structure EndpointImpl where
  Req : Type
  Resp : Type
  req_marker : Request Req
  resp_marker : Response Resp
  info : Unit → Info

namespace request

/-- A request with a body, headers, path parameters, and query parameters
(request::All). -/
structure All (B H P Q : Type) [Deserialize B] [Serialize B] [PathParams P]
    [Deserialize Q] [Serialize Q] where
  body : B
  headers : H
  path_params : P
  query_params : Q

/-- A request with only a body (request::BodyOnly). -/
structure BodyOnly (B : Type) [Deserialize B] [Serialize B] where
  body : B

/-- A request with only headers (request::HeadersOnly). -/
structure HeadersOnly (H : Type) where
  headers : H

/-- A request with only path parameters (request::PathParamsOnly). -/
structure PathParamsOnly (P : Type) [PathParams P] where
  path_params : P

/-- A request with only query parameters (request::QueryParamsOnly). -/
structure QueryParamsOnly (Q : Type) [Deserialize Q] [Serialize Q] where
  query_params : Q

/-- A request with no body (request::NoBody). -/
structure NoBody (H P Q : Type) [PathParams P] [Deserialize Q] [Serialize Q] where
  headers : H
  path_params : P
  query_params : Q

/-- A request with no headers (request::NoHeaders). -/
structure NoHeaders (B P Q : Type) [Deserialize B] [Serialize B] [PathParams P]
    [Deserialize Q] [Serialize Q] where
  body : B
  path_params : P
  query_params : Q

/-- A request with no path parameters (request::NoPathParams). -/
structure NoPathParams (B H Q : Type) [Deserialize B] [Serialize B]
    [Deserialize Q] [Serialize Q] where
  body : B
  headers : H
  query_params : Q

/-- A request with no query parameters (request::NoQueryParams). -/
structure NoQueryParams (B H P : Type) [Deserialize B] [Serialize B] [PathParams P] where
  body : B
  headers : H
  path_params : P

/-- A request with only a body and headers (request::BodyAndHeaders). -/
structure BodyAndHeaders (B H : Type) [Deserialize B] [Serialize B] where
  body : B
  headers : H

/-- A request with only a body and path parameters (request::BodyAndPathParams). -/
structure BodyAndPathParams (B P : Type) [Deserialize B] [Serialize B] [PathParams P] where
  body : B
  path_params : P

/-- A request with only a body and query parameters (request::BodyAndQueryParams). -/
structure BodyAndQueryParams (B Q : Type) [Deserialize B] [Serialize B]
    [Deserialize Q] [Serialize Q] where
  body : B
  query_params : Q

/-- A request with only headers and path parameters (request::HeadersAndPathParams). -/
structure HeadersAndPathParams (H P : Type) [PathParams P] where
  headers : H
  path_params : P

/-- A request with only headers and query parameters (request::HeadersAndQueryParams). -/
structure HeadersAndQueryParams (H Q : Type) [Deserialize Q] [Serialize Q] where
  headers : H
  query_params : Q

/-- A request with only path parameters and query parameters
(request::PathParamsAndQueryParams). -/
structure PathParamsAndQueryParams (P Q : Type) [PathParams P]
    [Deserialize Q] [Serialize Q] where
  path_params : P
  query_params : Q

instance instRequestAll (B H P Q : Type) [Deserialize B] [Serialize B] [PathParams P]
    [Deserialize Q] [Serialize Q] : Request (All B H P Q) := ⟨⟩

instance instRequestBodyOnly (B : Type) [Deserialize B] [Serialize B] :
    Request (BodyOnly B) := ⟨⟩

instance instRequestHeadersOnly (H : Type) : Request (HeadersOnly H) := ⟨⟩

instance instRequestPathParamsOnly (P : Type) [PathParams P] :
    Request (PathParamsOnly P) := ⟨⟩

instance instRequestQueryParamsOnly (Q : Type) [Deserialize Q] [Serialize Q] :
    Request (QueryParamsOnly Q) := ⟨⟩

instance instRequestNoBody (H P Q : Type) [PathParams P] [Deserialize Q] [Serialize Q] :
    Request (NoBody H P Q) := ⟨⟩

instance instRequestNoHeaders (B P Q : Type) [Deserialize B] [Serialize B] [PathParams P]
    [Deserialize Q] [Serialize Q] : Request (NoHeaders B P Q) := ⟨⟩

instance instRequestNoPathParams (B H Q : Type) [Deserialize B] [Serialize B]
    [Deserialize Q] [Serialize Q] : Request (NoPathParams B H Q) := ⟨⟩

instance instRequestNoQueryParams (B H P : Type) [Deserialize B] [Serialize B]
    [PathParams P] : Request (NoQueryParams B H P) := ⟨⟩

instance instRequestBodyAndHeaders (B H : Type) [Deserialize B] [Serialize B] :
    Request (BodyAndHeaders B H) := ⟨⟩

instance instRequestBodyAndPathParams (B P : Type) [Deserialize B] [Serialize B]
    [PathParams P] : Request (BodyAndPathParams B P) := ⟨⟩

instance instRequestBodyAndQueryParams (B Q : Type) [Deserialize B] [Serialize B]
    [Deserialize Q] [Serialize Q] : Request (BodyAndQueryParams B Q) := ⟨⟩

instance instRequestHeadersAndPathParams (H P : Type) [PathParams P] :
    Request (HeadersAndPathParams H P) := ⟨⟩

instance instRequestHeadersAndQueryParams (H Q : Type) [Deserialize Q] [Serialize Q] :
    Request (HeadersAndQueryParams H Q) := ⟨⟩

instance instRequestPathParamsAndQueryParams (P Q : Type) [PathParams P]
    [Deserialize Q] [Serialize Q] : Request (PathParamsAndQueryParams P Q) := ⟨⟩

end request

namespace response

/-- A response with a body and headers (response::All; status is always present). -/
structure All (B H : Type) [Deserialize B] [Serialize B] where
  body : B
  headers : H
  status : U16

/-- A response with no body (response::NoBody). -/
structure NoBody (H : Type) where
  headers : H
  status : U16

/-- A response with no headers (response::NoHeaders). -/
structure NoHeaders (B : Type) [Deserialize B] [Serialize B] where
  body : B
  status : U16

/-- A response with only a status code (response::StatusOnly). -/
structure StatusOnly where
  status : U16

instance instResponseAll (B H : Type) [Deserialize B] [Serialize B] :
    Response (All B H) := ⟨⟩

instance instResponseNoBody (H : Type) : Response (NoBody H) := ⟨⟩

instance instResponseNoHeaders (B : Type) [Deserialize B] [Serialize B] :
    Response (NoHeaders B) := ⟨⟩

instance instResponseStatusOnly : Response StatusOnly := ⟨⟩

end response

/-- Shallow model of the endpoint! code generator in src/src/macros.rs: given the
in-scope request and response types with their marker-trait bounds and the six
metadata arguments (description, name, rate_limited, request_method,
requires_authentication, router_path), it emits the Endpoint trait implementation
whose associated types are the given types and whose info function returns the Info
record built from exactly those six arguments. The request_method identifier of the
source becomes a Method value here. -/
def endpointGen (Rq Rs : Type) (hq : Request Rq) (hs : Response Rs)
    (description name : String) (rate_limited : Bool) (request_method : Method)
    (requires_authentication : Bool) (router_path : String) : EndpointImpl :=
  ⟨Rq, Rs, hq, hs, fun _ =>
    ⟨description, name, rate_limited, request_method, requires_authentication,
      router_path⟩⟩

/-- A hand-written Endpoint trait implementation, following the spec's words and the
doc example of src/src/lib.rs: the author directly names the two associated types and
writes an info function returning the constant metadata record built from the six
metadata values. -/
def handWrittenEndpoint (Rq Rs : Type) (hq : Request Rq) (hs : Response Rs)
    (description name : String) (rate_limited : Bool) (request_method : Method)
    (requires_authentication : Bool) (router_path : String) : EndpointImpl :=
  ⟨Rq, Rs, hq, hs, fun _ =>
    ⟨description, name, rate_limited, request_method, requires_authentication,
      router_path⟩⟩

/-- The four request components an endpoint may need. -/
inductive Component
  | body
  | headers
  | pathParams
  | queryParams
deriving DecidableEq, Fintype

/-- A subset of the request component set, as four presence flags. -/
structure CompSet where
  body : Bool
  headers : Bool
  pathParams : Bool
  queryParams : Bool
deriving DecidableEq, Fintype

/-- The empty component subset. -/
def CompSet.empty : CompSet := ⟨false, false, false, false⟩

/-- Whether a component belongs to a component subset. -/
def componentPresent (s : CompSet) : Component → Bool
  | Component.body => s.body
  | Component.headers => s.headers
  | Component.pathParams => s.pathParams
  | Component.queryParams => s.queryParams

/-- The names of the 15 container types declared in mod request of src/src/lib.rs. -/
inductive ReqName
  | all
  | bodyOnly
  | headersOnly
  | pathParamsOnly
  | queryParamsOnly
  | noBody
  | noHeaders
  | noPathParams
  | noQueryParams
  | bodyAndHeaders
  | bodyAndPathParams
  | bodyAndQueryParams
  | headersAndPathParams
  | headersAndQueryParams
  | pathParamsAndQueryParams
deriving DecidableEq, Fintype

/-- The component subset held by each request container, read off the field lists of
the struct declarations in mod request (flags in the order body, headers,
path_params, query_params). -/
def reqComps : ReqName → CompSet
  | ReqName.all => ⟨true, true, true, true⟩
  | ReqName.bodyOnly => ⟨true, false, false, false⟩
  | ReqName.headersOnly => ⟨false, true, false, false⟩
  | ReqName.pathParamsOnly => ⟨false, false, true, false⟩
  | ReqName.queryParamsOnly => ⟨false, false, false, true⟩
  | ReqName.noBody => ⟨false, true, true, true⟩
  | ReqName.noHeaders => ⟨true, false, true, true⟩
  | ReqName.noPathParams => ⟨true, true, false, true⟩
  | ReqName.noQueryParams => ⟨true, true, true, false⟩
  | ReqName.bodyAndHeaders => ⟨true, true, false, false⟩
  | ReqName.bodyAndPathParams => ⟨true, false, true, false⟩
  | ReqName.bodyAndQueryParams => ⟨true, false, false, true⟩
  | ReqName.headersAndPathParams => ⟨false, true, true, false⟩
  | ReqName.headersAndQueryParams => ⟨false, true, false, true⟩
  | ReqName.pathParamsAndQueryParams => ⟨false, false, true, true⟩

/-- The capability constraint recorded on a type parameter in a container's
where-clause in the source. -/
inductive ConstraintKind
  | deserializeSerialize
  | pathParamsBound
  | unconstrained
deriving DecidableEq

/-- For each request container and component: none when the container has no field
for that component, otherwise the where-clause constraint the source places on that
component's type parameter (unconstrained when the parameter appears with no bound).
Transcribed container by container from the struct declarations of mod request. -/
def reqConstraint : ReqName → Component → Option ConstraintKind
  | ReqName.all, Component.body => some ConstraintKind.deserializeSerialize
  | ReqName.all, Component.headers => some ConstraintKind.unconstrained
  | ReqName.all, Component.pathParams => some ConstraintKind.pathParamsBound
  | ReqName.all, Component.queryParams => some ConstraintKind.deserializeSerialize
  | ReqName.bodyOnly, Component.body => some ConstraintKind.deserializeSerialize
  | ReqName.bodyOnly, _ => none
  | ReqName.headersOnly, Component.headers => some ConstraintKind.unconstrained
  | ReqName.headersOnly, _ => none
  | ReqName.pathParamsOnly, Component.pathParams => some ConstraintKind.pathParamsBound
  | ReqName.pathParamsOnly, _ => none
  | ReqName.queryParamsOnly, Component.queryParams => some ConstraintKind.deserializeSerialize
  | ReqName.queryParamsOnly, _ => none
  | ReqName.noBody, Component.body => none
  | ReqName.noBody, Component.headers => some ConstraintKind.unconstrained
  | ReqName.noBody, Component.pathParams => some ConstraintKind.pathParamsBound
  | ReqName.noBody, Component.queryParams => some ConstraintKind.deserializeSerialize
  | ReqName.noHeaders, Component.body => some ConstraintKind.deserializeSerialize
  | ReqName.noHeaders, Component.headers => none
  | ReqName.noHeaders, Component.pathParams => some ConstraintKind.pathParamsBound
  | ReqName.noHeaders, Component.queryParams => some ConstraintKind.deserializeSerialize
  | ReqName.noPathParams, Component.body => some ConstraintKind.deserializeSerialize
  | ReqName.noPathParams, Component.headers => some ConstraintKind.unconstrained
  | ReqName.noPathParams, Component.pathParams => none
  | ReqName.noPathParams, Component.queryParams => some ConstraintKind.deserializeSerialize
  | ReqName.noQueryParams, Component.body => some ConstraintKind.deserializeSerialize
  | ReqName.noQueryParams, Component.headers => some ConstraintKind.unconstrained
  | ReqName.noQueryParams, Component.pathParams => some ConstraintKind.pathParamsBound
  | ReqName.noQueryParams, Component.queryParams => none
  | ReqName.bodyAndHeaders, Component.body => some ConstraintKind.deserializeSerialize
  | ReqName.bodyAndHeaders, Component.headers => some ConstraintKind.unconstrained
  | ReqName.bodyAndHeaders, _ => none
  | ReqName.bodyAndPathParams, Component.body => some ConstraintKind.deserializeSerialize
  | ReqName.bodyAndPathParams, Component.pathParams => some ConstraintKind.pathParamsBound
  | ReqName.bodyAndPathParams, _ => none
  | ReqName.bodyAndQueryParams, Component.body => some ConstraintKind.deserializeSerialize
  | ReqName.bodyAndQueryParams, Component.queryParams => some ConstraintKind.deserializeSerialize
  | ReqName.bodyAndQueryParams, _ => none
  | ReqName.headersAndPathParams, Component.headers => some ConstraintKind.unconstrained
  | ReqName.headersAndPathParams, Component.pathParams => some ConstraintKind.pathParamsBound
  | ReqName.headersAndPathParams, _ => none
  | ReqName.headersAndQueryParams, Component.headers => some ConstraintKind.unconstrained
  | ReqName.headersAndQueryParams, Component.queryParams => some ConstraintKind.deserializeSerialize
  | ReqName.headersAndQueryParams, _ => none
  | ReqName.pathParamsAndQueryParams, Component.pathParams => some ConstraintKind.pathParamsBound
  | ReqName.pathParamsAndQueryParams, Component.queryParams => some ConstraintKind.deserializeSerialize
  | ReqName.pathParamsAndQueryParams, _ => none

/-- The two optional response components (status is always present). -/
inductive RespComponent
  | body
  | headers
deriving DecidableEq, Fintype

/-- A subset of the optional response components, as two presence flags. -/
structure RespCompSet where
  body : Bool
  headers : Bool
deriving DecidableEq, Fintype

/-- The names of the 4 container types declared in mod response of src/src/lib.rs. -/
inductive RespName
  | all
  | noBody
  | noHeaders
  | statusOnly
deriving DecidableEq, Fintype

/-- The optional components held by each response container, read off the field
lists of the struct declarations in mod response. -/
def respComps : RespName → RespCompSet
  | RespName.all => ⟨true, true⟩
  | RespName.noBody => ⟨false, true⟩
  | RespName.noHeaders => ⟨true, false⟩
  | RespName.statusOnly => ⟨false, false⟩

/-- Whether each response container declares a status field, read off the struct
declarations in mod response. -/
def respHasStatus : RespName → Bool
  | RespName.all => true
  | RespName.noBody => true
  | RespName.noHeaders => true
  | RespName.statusOnly => true

/-- For each response container and optional component: none when absent, otherwise
the where-clause constraint on that component's type parameter, transcribed from the
struct declarations of mod response. -/
def respConstraint : RespName → RespComponent → Option ConstraintKind
  | RespName.all, RespComponent.body => some ConstraintKind.deserializeSerialize
  | RespName.all, RespComponent.headers => some ConstraintKind.unconstrained
  | RespName.noBody, RespComponent.body => none
  | RespName.noBody, RespComponent.headers => some ConstraintKind.unconstrained
  | RespName.noHeaders, RespComponent.body => some ConstraintKind.deserializeSerialize
  | RespName.noHeaders, RespComponent.headers => none
  | RespName.statusOnly, _ => none

/-- Modelled from the spec: the canonical Wire Request of spec section 3 — opaque
byte body, ordered byte-key/byte-value header pairs, method, fully resolved path
string, ordered string key/value query pairs. This source variant does not contain
the wire model; it is described only by the spec. -/
structure WireRequest where
  body : List Nat
  headers : List (List Nat × List Nat)
  method : Method
  path : String
  query : List (String × String)

/-- Modelled from the spec: the canonical Wire Response of spec section 3 — opaque
byte body, header pairs, numeric HTTP status. This source variant does not contain
the wire model; it is described only by the spec. -/
structure WireResponse where
  body : List Nat
  headers : List (List Nat × List Nat)
  status : U16

/-- Modelled from the spec: the conversion contract of the spec glossary for request
types — a total conversion into Wire Request paired with a fallible conversion from
Wire Request that recovers every converted value. -/
def RequestConversionContract (T : Type) : Prop :=
  ∃ toWire : T → WireRequest, ∃ fromWire : WireRequest → Option T,
    ∀ r : T, fromWire (toWire r) = some r

/-- Modelled from the spec: the conversion contract of the spec glossary for response
types — a total conversion into Wire Response paired with a fallible conversion from
Wire Response that recovers every converted value. -/
def ResponseConversionContract (T : Type) : Prop :=
  ∃ toWire : T → WireResponse, ∃ fromWire : WireResponse → Option T,
    ∀ r : T, fromWire (toWire r) = some r

/-- Modelled from the spec: the client-side conversion of a request.All value into
the Wire Request (spec section 2, control flow) — serializing the body with the
serde bound, rendering the path with PathParams, and assembling header and query
pairs with author-supplied component encoders. -/
def toWireAll {B H P Q : Type} [Deserialize B] [Serialize B] [PathParams P]
    [Deserialize Q] [Serialize Q] (encH : H → List (List Nat × List Nat))
    (encQ : Q → List (String × String)) (m : Method)
    (r : request.All B H P Q) : WireRequest :=
  ⟨Serialize.serialize r.body, encH r.headers, m,
    PathParams.request_path r.path_params, encQ r.query_params⟩

/-- Modelled from the spec: the server-side fallible reverse conversion of a Wire
Request into a request.All value — decoding the body with the serde bound and the
headers, path and query with author-supplied component decoders; any component
failure fails the whole conversion. -/
def fromWireAll {B H P Q : Type} [Deserialize B] [Serialize B] [PathParams P]
    [Deserialize Q] [Serialize Q] (decH : List (List Nat × List Nat) → Option H)
    (parseP : String → Option P) (decQ : List (String × String) → Option Q)
    (w : WireRequest) : Option (request.All B H P Q) :=
  match Deserialize.deserialize w.body, decH w.headers, parseP w.path, decQ w.query with
  | some b, some h, some p, some q => some ⟨b, h, p, q⟩
  | _, _, _, _ => none

/-- Byte codec on Nat used by the concrete round-trip witness. -/
instance : Serialize Nat := ⟨fun n => [n]⟩

/-- Byte decoder on Nat used by the concrete round-trip witness. -/
instance : Deserialize Nat :=
  ⟨fun l => match l with
    | [n] => some n
    | _ => none⟩

/-- Path rendering for a path-parameter type with no data, used by the concrete
round-trip witness. -/
instance : PathParams Unit := ⟨fun _ => "/d"⟩

/-- Byte codec on Bool used by the concrete round-trip witness. -/
instance : Serialize Bool := ⟨fun b => [if b then 1 else 0]⟩

/-- Byte decoder on Bool used by the concrete round-trip witness. -/
instance : Deserialize Bool :=
  ⟨fun l => match l with
    | [1] => some true
    | [0] => some false
    | _ => none⟩

/-- Header encoder used by the concrete round-trip witness. -/
def demoEncH : Bool → List (List Nat × List Nat) :=
  fun b => [([1], [if b then 1 else 0])]

/-- Header decoder used by the concrete round-trip witness. -/
def demoDecH : List (List Nat × List Nat) → Option Bool :=
  fun l => match l with
    | [([1], [1])] => some true
    | [([1], [0])] => some false
    | _ => none

/-- Path parser used by the concrete round-trip witness. -/
def demoParseP : String → Option Unit :=
  fun s => if s = "/d" then some () else none

/-- Query encoder used by the concrete round-trip witness. -/
def demoEncQ : Bool → List (String × String) :=
  fun b => [("f", if b then "1" else "0")]

/-- Query decoder used by the concrete round-trip witness. -/
def demoDecQ : List (String × String) → Option Bool :=
  fun l => match l with
    | [("f", "1")] => some true
    | [("f", "0")] => some false
    | _ => none

/-- A concrete request value used by the round-trip witness. -/
def demoReq : request.All Nat Bool Unit Bool := ⟨5, true, (), false⟩

/-- Injection of Char into Nat, used to show the wire model is countable. -/
instance : Countable Char :=
  Function.Injective.countable (f := Char.toNat) (by
    intro a b h
    exact Char.eq_of_val_eq (UInt32.toNat.inj h))

/-- Injection of String into List Char, used to show the wire model is countable. -/
instance : Countable String :=
  Function.Injective.countable (f := String.data) (by
    intro a b h
    cases a
    cases b
    simp_all)

/-- The Wire Request model is countable: it injects into a product of countable
component types. -/
instance : Countable WireRequest :=
  Function.Injective.countable
    (f := fun w : WireRequest => (w.body, w.headers, w.method, w.path, w.query)) (by
    intro a b h
    cases a
    cases b
    simp_all)

/-- The type of sets of naturals is uncountable (Cantor's diagonal argument). -/
theorem setNat_not_countable : ¬ Countable (Set ℕ) := by
  intro h
  obtain ⟨f, hf⟩ := (countable_iff_exists_injective (Set ℕ)).mp h
  exact Function.cantor_injective f hf

/-- The constructor of the HeadersOnly container is injective. -/
theorem headersOnly_mk_inj {H : Type} :
    Function.Injective (fun h : H => request.HeadersOnly.mk h) :=
  fun _ _ hab => congrArg request.HeadersOnly.headers hab

/-- The HeadersOnly container over sets of naturals satisfies the Request marker
trait, yet no lawful pair of wire conversions can exist for it: a total to-wire
conversion with a fallible inverse would inject an uncountable type into the
countable wire model. -/
theorem headersOnly_setNat_no_contract :
    ¬ RequestConversionContract (request.HeadersOnly (Set ℕ)) := by
  rintro ⟨tw, fw, hrt⟩
  have hinj : Function.Injective tw := by
    intro a b hab
    have h1 := hrt a
    rw [hab, hrt b] at h1
    exact (Option.some.inj h1).symm
  have hc : Countable (Set ℕ) :=
    Function.Injective.countable (hinj.comp headersOnly_mk_inj)
  exact setNat_not_countable hc

/-- Claim C1, counterexample: it is not the case that every Endpoint's Request and
Response types satisfy the wire conversion contract. The trait's bounds are only the
empty marker traits, so the endpoint whose request type is HeadersOnly (Set ℕ) (an
uncountable headers type, accepted by the unconstrained headers parameter) is a valid
Endpoint implementation, yet no total to-wire conversion with a fallible inverse into
the countable wire model can exist for it. -/
theorem C1_counterexample :
    ¬ ∀ e : EndpointImpl,
        RequestConversionContract e.Req ∧ ResponseConversionContract e.Resp :=
  fun h => headersOnly_setNat_no_contract
    (h ⟨request.HeadersOnly (Set ℕ), response.StatusOnly, ⟨⟩, ⟨⟩,
      fun _ => ⟨"", "", false, Method.Get, false, ""⟩⟩).1

/-- Claim C1, amended: the Endpoint trait binds its associated Request and Response
types only to the empty marker traits Request and Response — every Endpoint's
associated types satisfy the markers, and conversely any pair of marker-satisfying
types together with any Info value forms an Endpoint implementation; no conversion
contract with the wire representations is required by the trait's bounds. -/
theorem C1_marker_bounds_only :
    (∀ e : EndpointImpl, Request e.Req ∧ Response e.Resp) ∧
    (∀ R S : Type, Request R → Response S → ∀ i : Info,
      ∃ e : EndpointImpl, e.Req = R ∧ e.Resp = S ∧ e.info () = i) :=
  ⟨fun e => ⟨e.req_marker, e.resp_marker⟩,
   fun R S hR hS i => ⟨⟨R, S, hR, hS, fun _ => i⟩, rfl, rfl, rfl⟩⟩

/-- Witness for C1 (amended): a concrete Endpoint implementation built from the
HeadersOnly request container and the StatusOnly response container. -/
theorem C1_marker_bounds_only_witness :
    ∃ e : EndpointImpl, e.Req = request.HeadersOnly Bool ∧
      e.Resp = response.StatusOnly ∧
      e.info () = ⟨"d", "n", false, Method.Get, false, "/p"⟩ :=
  C1_marker_bounds_only.2 (request.HeadersOnly Bool) response.StatusOnly ⟨⟩ ⟨⟩
    ⟨"d", "n", false, Method.Get, false, "/p"⟩

/-- Claim C2: for every request value of the all-components container built from
valid field values — that is, values on which the author-supplied component codecs
invert their encoders — converting to the wire request and back through the fallible
reverse conversion succeeds and returns the original value, with body, path-derived
fields, headers and query parameters all preserved. -/
theorem C2_round_trip {B H P Q : Type} [Deserialize B] [Serialize B] [PathParams P]
    [Deserialize Q] [Serialize Q]
    (encH : H → List (List Nat × List Nat))
    (decH : List (List Nat × List Nat) → Option H)
    (parseP : String → Option P) (encQ : Q → List (String × String))
    (decQ : List (String × String) → Option Q) (m : Method)
    (hB : ∀ b : B, Deserialize.deserialize (Serialize.serialize b) = some b)
    (hH : ∀ h : H, decH (encH h) = some h)
    (hP : ∀ p : P, parseP (PathParams.request_path p) = some p)
    (hQ : ∀ q : Q, decQ (encQ q) = some q)
    (r : request.All B H P Q) :
    fromWireAll decH parseP decQ (toWireAll encH encQ m r) = some r := by
  cases r
  simp [toWireAll, fromWireAll, hB, hH, hP, hQ]

/-- Witness for C2: the concrete request value demoReq with the demo component
codecs round-trips through the wire representation. -/
theorem C2_round_trip_witness :
    fromWireAll demoDecH demoParseP demoDecQ
      (toWireAll demoEncH demoEncQ Method.Put demoReq) = some demoReq :=
  C2_round_trip demoEncH demoDecH demoParseP demoEncQ demoDecQ Method.Put
    (fun _ => rfl) (by intro h; cases h <;> rfl) (by intro p; cases p; rfl)
    (by intro q; cases q <;> rfl) demoReq

/-- Claim C3: the request shape family provides exactly one container type per
non-empty subset of {body, headers, path_params, query_params} — 15 container types
in total, whose component sets are pairwise distinct, never empty, and cover every
non-empty subset — and each container holds exactly the fields named by its subset
(it is equivalent to the product of its components, with no unused or placeholder
fields) and implements the Request marker trait. -/
theorem C3_request_family :
    (Fintype.card ReqName = 15) ∧
    (∀ n : ReqName, reqComps n ≠ CompSet.empty) ∧
    (∀ a b : ReqName, reqComps a = reqComps b → a = b) ∧
    (∀ s : CompSet, s ≠ CompSet.empty → ∃ n : ReqName, reqComps n = s) ∧
    (∀ (B H P Q : Type) [Deserialize B] [Serialize B] [PathParams P] [Deserialize Q]
        [Serialize Q], Nonempty (request.All B H P Q ≃ B × H × P × Q) ∧
        Request (request.All B H P Q)) ∧
    (∀ (B : Type) [Deserialize B] [Serialize B],
        Nonempty (request.BodyOnly B ≃ B) ∧ Request (request.BodyOnly B)) ∧
    (∀ H : Type,
        Nonempty (request.HeadersOnly H ≃ H) ∧ Request (request.HeadersOnly H)) ∧
    (∀ (P : Type) [PathParams P],
        Nonempty (request.PathParamsOnly P ≃ P) ∧ Request (request.PathParamsOnly P)) ∧
    (∀ (Q : Type) [Deserialize Q] [Serialize Q],
        Nonempty (request.QueryParamsOnly Q ≃ Q) ∧
        Request (request.QueryParamsOnly Q)) ∧
    (∀ (H P Q : Type) [PathParams P] [Deserialize Q] [Serialize Q],
        Nonempty (request.NoBody H P Q ≃ H × P × Q) ∧ Request (request.NoBody H P Q)) ∧
    (∀ (B P Q : Type) [Deserialize B] [Serialize B] [PathParams P] [Deserialize Q]
        [Serialize Q], Nonempty (request.NoHeaders B P Q ≃ B × P × Q) ∧
        Request (request.NoHeaders B P Q)) ∧
    (∀ (B H Q : Type) [Deserialize B] [Serialize B] [Deserialize Q] [Serialize Q],
        Nonempty (request.NoPathParams B H Q ≃ B × H × Q) ∧
        Request (request.NoPathParams B H Q)) ∧
    (∀ (B H P : Type) [Deserialize B] [Serialize B] [PathParams P],
        Nonempty (request.NoQueryParams B H P ≃ B × H × P) ∧
        Request (request.NoQueryParams B H P)) ∧
    (∀ (B H : Type) [Deserialize B] [Serialize B],
        Nonempty (request.BodyAndHeaders B H ≃ B × H) ∧
        Request (request.BodyAndHeaders B H)) ∧
    (∀ (B P : Type) [Deserialize B] [Serialize B] [PathParams P],
        Nonempty (request.BodyAndPathParams B P ≃ B × P) ∧
        Request (request.BodyAndPathParams B P)) ∧
    (∀ (B Q : Type) [Deserialize B] [Serialize B] [Deserialize Q] [Serialize Q],
        Nonempty (request.BodyAndQueryParams B Q ≃ B × Q) ∧
        Request (request.BodyAndQueryParams B Q)) ∧
    (∀ (H P : Type) [PathParams P],
        Nonempty (request.HeadersAndPathParams H P ≃ H × P) ∧
        Request (request.HeadersAndPathParams H P)) ∧
    (∀ (H Q : Type) [Deserialize Q] [Serialize Q],
        Nonempty (request.HeadersAndQueryParams H Q ≃ H × Q) ∧
        Request (request.HeadersAndQueryParams H Q)) ∧
    (∀ (P Q : Type) [PathParams P] [Deserialize Q] [Serialize Q],
        Nonempty (request.PathParamsAndQueryParams P Q ≃ P × Q) ∧
        Request (request.PathParamsAndQueryParams P Q)) := by
  refine ⟨by decide, by decide, by decide, by decide,
    ?_, ?_, ?_, ?_, ?_, ?_, ?_, ?_, ?_, ?_, ?_, ?_, ?_, ?_, ?_⟩
  · intro B H P Q iDB iSB iP iDQ iSQ
    exact ⟨⟨⟨fun r => ⟨r.body, r.headers, r.path_params, r.query_params⟩,
      fun t => ⟨t.1, t.2.1, t.2.2.1, t.2.2.2⟩, fun r => rfl, fun t => rfl⟩⟩, ⟨⟩⟩
  · intro B iDB iSB
    exact ⟨⟨⟨fun r => r.body, fun b => ⟨b⟩, fun r => rfl, fun b => rfl⟩⟩, ⟨⟩⟩
  · intro H
    exact ⟨⟨⟨fun r => r.headers, fun h => ⟨h⟩, fun r => rfl, fun h => rfl⟩⟩, ⟨⟩⟩
  · intro P iP
    exact ⟨⟨⟨fun r => r.path_params, fun p => ⟨p⟩, fun r => rfl, fun p => rfl⟩⟩, ⟨⟩⟩
  · intro Q iDQ iSQ
    exact ⟨⟨⟨fun r => r.query_params, fun q => ⟨q⟩, fun r => rfl, fun q => rfl⟩⟩, ⟨⟩⟩
  · intro H P Q iP iDQ iSQ
    exact ⟨⟨⟨fun r => ⟨r.headers, r.path_params, r.query_params⟩,
      fun t => ⟨t.1, t.2.1, t.2.2⟩, fun r => rfl, fun t => rfl⟩⟩, ⟨⟩⟩
  · intro B P Q iDB iSB iP iDQ iSQ
    exact ⟨⟨⟨fun r => ⟨r.body, r.path_params, r.query_params⟩,
      fun t => ⟨t.1, t.2.1, t.2.2⟩, fun r => rfl, fun t => rfl⟩⟩, ⟨⟩⟩
  · intro B H Q iDB iSB iDQ iSQ
    exact ⟨⟨⟨fun r => ⟨r.body, r.headers, r.query_params⟩,
      fun t => ⟨t.1, t.2.1, t.2.2⟩, fun r => rfl, fun t => rfl⟩⟩, ⟨⟩⟩
  · intro B H P iDB iSB iP
    exact ⟨⟨⟨fun r => ⟨r.body, r.headers, r.path_params⟩,
      fun t => ⟨t.1, t.2.1, t.2.2⟩, fun r => rfl, fun t => rfl⟩⟩, ⟨⟩⟩
  · intro B H iDB iSB
    exact ⟨⟨⟨fun r => ⟨r.body, r.headers⟩, fun t => ⟨t.1, t.2⟩,
      fun r => rfl, fun t => rfl⟩⟩, ⟨⟩⟩
  · intro B P iDB iSB iP
    exact ⟨⟨⟨fun r => ⟨r.body, r.path_params⟩, fun t => ⟨t.1, t.2⟩,
      fun r => rfl, fun t => rfl⟩⟩, ⟨⟩⟩
  · intro B Q iDB iSB iDQ iSQ
    exact ⟨⟨⟨fun r => ⟨r.body, r.query_params⟩, fun t => ⟨t.1, t.2⟩,
      fun r => rfl, fun t => rfl⟩⟩, ⟨⟩⟩
  · intro H P iP
    exact ⟨⟨⟨fun r => ⟨r.headers, r.path_params⟩, fun t => ⟨t.1, t.2⟩,
      fun r => rfl, fun t => rfl⟩⟩, ⟨⟩⟩
  · intro H Q iDQ iSQ
    exact ⟨⟨⟨fun r => ⟨r.headers, r.query_params⟩, fun t => ⟨t.1, t.2⟩,
      fun r => rfl, fun t => rfl⟩⟩, ⟨⟩⟩
  · intro P Q iP iDQ iSQ
    exact ⟨⟨⟨fun r => ⟨r.path_params, r.query_params⟩, fun t => ⟨t.1, t.2⟩,
      fun r => rfl, fun t => rfl⟩⟩, ⟨⟩⟩

/-- Witness for C3: the body-only subset is covered by a container. -/
theorem C3_request_family_witness :
    ∃ n : ReqName, reqComps n = ⟨true, false, false, false⟩ :=
  C3_request_family.2.2.2.1 ⟨true, false, false, false⟩ (by decide)

/-- Claim C4: the response shape family consists of exactly 4 container types whose
optional-component sets are pairwise distinct and cover body presence crossed with
headers presence; every response container declares a status field (each container is
equivalent to the product of its optional components with U16), and each implements
the Response marker trait. -/
theorem C4_response_family :
    (Fintype.card RespName = 4) ∧
    (∀ a b : RespName, respComps a = respComps b → a = b) ∧
    (∀ s : RespCompSet, ∃ n : RespName, respComps n = s) ∧
    (∀ n : RespName, respHasStatus n = true) ∧
    (∀ (B H : Type) [Deserialize B] [Serialize B],
        Nonempty (response.All B H ≃ B × H × U16) ∧ Response (response.All B H)) ∧
    (∀ H : Type,
        Nonempty (response.NoBody H ≃ H × U16) ∧ Response (response.NoBody H)) ∧
    (∀ (B : Type) [Deserialize B] [Serialize B],
        Nonempty (response.NoHeaders B ≃ B × U16) ∧ Response (response.NoHeaders B)) ∧
    (Nonempty (response.StatusOnly ≃ U16) ∧ Response response.StatusOnly) := by
  refine ⟨by decide, by decide, by decide, by decide, ?_, ?_, ?_,
    ⟨⟨⟨fun r => r.status, fun s => ⟨s⟩, fun r => rfl, fun s => rfl⟩⟩, ⟨⟩⟩⟩
  · intro B H iDB iSB
    exact ⟨⟨⟨fun r => ⟨r.body, r.headers, r.status⟩, fun t => ⟨t.1, t.2.1, t.2.2⟩,
      fun r => rfl, fun t => rfl⟩⟩, ⟨⟩⟩
  · intro H
    exact ⟨⟨⟨fun r => ⟨r.headers, r.status⟩, fun t => ⟨t.1, t.2⟩,
      fun r => rfl, fun t => rfl⟩⟩, ⟨⟩⟩
  · intro B iDB iSB
    exact ⟨⟨⟨fun r => ⟨r.body, r.status⟩, fun t => ⟨t.1, t.2⟩,
      fun r => rfl, fun t => rfl⟩⟩, ⟨⟩⟩

/-- Witness for C4: the injectivity of the component map applied at the status-only
container. -/
theorem C4_response_family_witness : RespName.statusOnly = RespName.statusOnly :=
  C4_response_family.2.1 RespName.statusOnly RespName.statusOnly rfl

/-- Claim C5, counterexample: no request container has the empty component set — the
shape family has no dedicated empty-request container type. -/
theorem C5_counterexample : ¬ ∃ n : ReqName, reqComps n = CompSet.empty := by
  decide

/-- Claim C5, amended: on the response side the dedicated StatusOnly container
represents the absence of both optional components (it holds only the status field);
on the request side, however, the family covers only the non-empty subsets, and there
is no dedicated empty-request container: an endpoint needing zero request components
has no container in this family. -/
theorem C5_no_empty_request_container :
    (∀ n : ReqName, reqComps n ≠ CompSet.empty) ∧
    respComps RespName.statusOnly = ⟨false, false⟩ ∧
    respHasStatus RespName.statusOnly = true ∧
    Response response.StatusOnly ∧
    Nonempty (response.StatusOnly ≃ U16) :=
  ⟨by decide, rfl, rfl, ⟨⟩,
    ⟨⟨fun r => r.status, fun s => ⟨s⟩, fun r => rfl, fun s => rfl⟩⟩⟩

/-- Witness for C5 (amended): the body-only container's component set is not empty. -/
theorem C5_no_empty_request_container_witness :
    reqComps ReqName.bodyOnly ≠ CompSet.empty :=
  C5_no_empty_request_container.1 ReqName.bodyOnly

/-- Claim C6: the Endpoint implementation produced by the endpoint! generator is
equal to the hand-written implementation on the same inputs — it wires the in-scope
request and response types as the associated types, and its info function returns the
Info record whose six fields are exactly the six metadata arguments, introducing no
other behavior. -/
theorem C6_endpoint_gen_equiv :
    ∀ (Rq Rs : Type) (hq : Request Rq) (hs : Response Rs) (d n : String) (rl : Bool)
      (m : Method) (ra : Bool) (rp : String),
      endpointGen Rq Rs hq hs d n rl m ra rp =
        handWrittenEndpoint Rq Rs hq hs d n rl m ra rp ∧
      (endpointGen Rq Rs hq hs d n rl m ra rp).Req = Rq ∧
      (endpointGen Rq Rs hq hs d n rl m ra rp).Resp = Rs ∧
      (endpointGen Rq Rs hq hs d n rl m ra rp).info () = ⟨d, n, rl, m, ra, rp⟩ :=
  fun _ _ _ _ _ _ _ _ _ _ => ⟨rfl, rfl, rfl, rfl⟩

/-- Witness for C6: the generator applied to concrete types and metadata returns the
expected Info record. -/
theorem C6_endpoint_gen_equiv_witness :
    (endpointGen (request.HeadersOnly Bool) response.StatusOnly ⟨⟩ ⟨⟩ "d" "e" true
        Method.Put false "/p").info () = ⟨"d", "e", true, Method.Put, false, "/p"⟩ :=
  (C6_endpoint_gen_equiv (request.HeadersOnly Bool) response.StatusOnly ⟨⟩ ⟨⟩ "d" "e"
    true Method.Put false "/p").2.2.2

/-- Claim C7: info is deterministic — for every endpoint implementation any two calls
return the same Info value, and for every generated endpoint every call returns
exactly the constant metadata record. -/
theorem C7_info_deterministic :
    (∀ (e : EndpointImpl) (u v : Unit), e.info u = e.info v) ∧
    (∀ (Rq Rs : Type) (hq : Request Rq) (hs : Response Rs) (d n : String) (rl : Bool)
      (m : Method) (ra : Bool) (rp : String) (u : Unit),
      (endpointGen Rq Rs hq hs d n rl m ra rp).info u = ⟨d, n, rl, m, ra, rp⟩) :=
  ⟨fun e u v => by cases u; cases v; rfl,
   fun _ _ _ _ _ _ _ _ _ _ _ => rfl⟩

/-- Witness for C7: a generated endpoint's info call returns the constant record. -/
theorem C7_info_deterministic_witness :
    (endpointGen (request.HeadersOnly Bool) response.StatusOnly ⟨⟩ ⟨⟩ "a" "b" false
        Method.Get true "/q").info () = ⟨"a", "b", false, Method.Get, true, "/q"⟩ :=
  C7_info_deterministic.2 (request.HeadersOnly Bool) response.StatusOnly ⟨⟩ ⟨⟩ "a" "b"
    false Method.Get true "/q" ()

/-- Claim C8: Method is a closed enumeration whose values are exactly the four HTTP
verbs Delete, Get, Post and Put — every value is one of the four, the four are
pairwise distinct, and the type has cardinality 4. -/
theorem C8_method_closed :
    (∀ m : Method,
      m = Method.Delete ∨ m = Method.Get ∨ m = Method.Post ∨ m = Method.Put) ∧
    Fintype.card Method = 4 ∧
    [Method.Delete, Method.Get, Method.Post, Method.Put].Nodup := by
  refine ⟨by decide, by decide, by decide⟩

/-- Claim C9: in every request and response container with a headers component the
headers type parameter is completely unconstrained — the marker instances accept any
headers type, and the transcribed where-clause table assigns the headers parameter no
capability bound — whereas every body and query-params parameter carries the
Deserialize + Serialize bound and every path-params parameter the PathParams bound;
headers is the only component whose parameter is unconstrained, and the table agrees
with the component sets on which components are present. -/
theorem C9_headers_unconstrained :
    (∀ H : Type, Request (request.HeadersOnly H)) ∧
    (∀ H : Type, Response (response.NoBody H)) ∧
    (∀ n : ReqName,
      (reqConstraint n Component.body = none ∨
        reqConstraint n Component.body = some ConstraintKind.deserializeSerialize) ∧
      (reqConstraint n Component.headers = none ∨
        reqConstraint n Component.headers = some ConstraintKind.unconstrained) ∧
      (reqConstraint n Component.pathParams = none ∨
        reqConstraint n Component.pathParams = some ConstraintKind.pathParamsBound) ∧
      (reqConstraint n Component.queryParams = none ∨
        reqConstraint n Component.queryParams =
          some ConstraintKind.deserializeSerialize)) ∧
    (∀ (n : ReqName) (c : Component),
      reqConstraint n c ≠ none ↔ componentPresent (reqComps n) c = true) ∧
    (∀ (n : ReqName) (c : Component),
      reqConstraint n c = some ConstraintKind.unconstrained → c = Component.headers) ∧
    (∀ n : RespName,
      (respConstraint n RespComponent.body = none ∨
        respConstraint n RespComponent.body =
          some ConstraintKind.deserializeSerialize) ∧
      (respConstraint n RespComponent.headers = none ∨
        respConstraint n RespComponent.headers = some ConstraintKind.unconstrained)) ∧
    (∀ (n : RespName) (c : RespComponent),
      respConstraint n c = some ConstraintKind.unconstrained →
        c = RespComponent.headers) ∧
    (∀ n : ReqName, componentPresent (reqComps n) Component.headers = true →
      reqConstraint n Component.headers = some ConstraintKind.unconstrained) :=
  ⟨fun _ => ⟨⟩, fun _ => ⟨⟩, by decide, by decide, by decide, by decide, by decide,
    by decide⟩

/-- Witness for C9: the all-components container is recorded as having a headers
component. -/
theorem C9_headers_unconstrained_witness :
    componentPresent (reqComps ReqName.all) Component.headers = true :=
  (C9_headers_unconstrained.2.2.2.1 ReqName.all Component.headers).mp (by decide)

/-- Claim C10: the status field of every response container is a 16-bit unsigned
integer — any value from 0 to 65535 inclusive is accepted and stored unchanged, with
no validation and no modification, in each of the four containers. -/
theorem C10_status_passthrough :
    (∀ s : U16, (response.StatusOnly.mk s).status = s) ∧
    (∀ (H : Type) (h : H) (s : U16),
      (response.NoBody.mk h s).status = s ∧ (response.NoBody.mk h s).headers = h) ∧
    (∀ (B : Type) [Deserialize B] [Serialize B], ∀ (b : B) (s : U16),
      (response.NoHeaders.mk b s).status = s ∧ (response.NoHeaders.mk b s).body = b) ∧
    (∀ (B H : Type) [Deserialize B] [Serialize B], ∀ (b : B) (h : H) (s : U16),
      (response.All.mk b h s).status = s) ∧
    (∀ (n : Nat) (hn : n < 65536),
      ((response.StatusOnly.mk ⟨n, hn⟩).status).val = n) := by
  refine ⟨fun s => rfl, fun H h s => ⟨rfl, rfl⟩, ?_, ?_, fun n hn => rfl⟩
  · intro B iD iS b s
    exact ⟨rfl, rfl⟩
  · intro B H iD iS b h s
    rfl

/-- Witness for C10: the extreme status value 65535 is accepted and stored
unchanged. -/
theorem C10_status_passthrough_witness :
    ((response.StatusOnly.mk ⟨65535, by decide⟩).status).val = 65535 :=
  C10_status_passthrough.2.2.2.2 65535 (by decide)

end RumaApi
